import Mathlib

/-!
Verification of the FatigueDesigner procedural-geometry core.

This file gives a shallow embedding, in Lean 4, of the numeric core of the
FatigueDesigner repository: the specimen validator (`validateSpecimen`), the
axisymmetric profile generator (`generateSpecimenProfile` and its helpers),
the analytic lattice volume estimator (`calculateLatticeVolumeReduction`),
the lattice/Boolean pipeline of `lattice-generators.ts`
(`createLatticeGaugeSection` and the per-family generators), and the BCC
lattice generator of `materials.ts` (`generateBCCLatticeMesh`, embedded as the
lists of sphere centres and strut segments it emits).

Modelling conventions:
* JavaScript numbers are modelled by `ℝ` (by `ℚ` in the validator, which only
  compares and never uses transcendental functions); `Math.floor`/`Math.ceil`
  become `Int.floor`/`Int.ceil`, `Math.sqrt` becomes `Real.sqrt`, and the trig
  functions become their `Real` counterparts.
* JavaScript `for` loops whose counter starts at a possibly fractional value
  `-n/2` and steps by 1 are modelled by mapping over `List.range` of the
  iteration count, recovering the loop value as `-n/2 + k`.
* `Math.random() < q` draws are modelled by an explicit boolean oracle
  (`coin`), one decision per candidate strut; a run of the program corresponds
  to one choice of oracle.
* `try/catch` around an individual CSG operation is modelled by a boolean
  oracle `csgOk`, one decision per attempted Boolean operation; the
  surrounding top-level `try/catch` of `createLatticeGaugeSection` is
  modelled by a boolean `catastrophicFailure`.
* Three.js meshes are modelled by `Mesh`: a syntactic geometry tree `Geom`
  (recording exactly which cylinders are built, how they are placed, and
  which Boolean subtractions are applied), a `wireframe` material flag and a
  list of child geometries.
* Validator messages are modelled by the inductive `ValidationMessage`;
  `filletTooSmall` carries the computed minimum radius that the source
  interpolates into its message string.
-/

namespace FatigueDesigner

/-- `SpecimenType` from types.ts: only circular specimens exist. -/
inductive SpecimenType
  | circular
  deriving DecidableEq

/-- `ASTMStandard` from types.ts. -/
inductive ASTMStandard
  | E466
  | E606
  | E8
  deriving DecidableEq

/-- `MaterialType` from types.ts. -/
inductive MaterialType
  | steel
  | aluminum
  | titanium
  deriving DecidableEq

/-- `TransitionType` from types.ts. -/
inductive TransitionType
  | tangentArc
  | spline
  | conical
  deriving DecidableEq

/-- `LatticeType` from types.ts / lattice-generators.ts. -/
inductive LatticeType
  | none
  | verticalGrid
  | verticalCross
  | verticalDiamond
  | verticalGyroid
  | simpleVertical
  | vertical
  deriving DecidableEq

/-- `SpecimenParams` from types.ts, generic over the number type (`ℚ` for the
validator, `ℝ` for the profile generator). -/
structure SpecimenParams (α : Type) where
  gripLength : α
  gripDiameter : α
  gaugeLength : α
  gaugeDiameter : α
  filletRadius : α
  transitionType : TransitionType
  useTaperedTransition : Bool
  taperAngle : α
  material : MaterialType
  latticeType : LatticeType
  latticeSize : α
  latticeThickness : α
  latticeOffset : α

/-- The diagnostic messages produced by `validateSpecimen`, one constructor per
message string of the source; `filletTooSmall` carries the computed minimum
radius interpolated into the source string. -/
inductive ValidationMessage (α : Type)
  | gaugeNotSmallerThanGrip
  | filletTooSmall (minRadius : α)
  | e466RatioTooSmall
  | e606RatioOutOfRange
  | taperAngleOutOfRange
  | meetsStandards
  deriving DecidableEq

/-- `ValidationResult` from types.ts. -/
structure ValidationResult (α : Type) where
  valid : Bool
  message : ValidationMessage α
  deriving DecidableEq

/-- `validateSpecimen` from validation.ts.  The source returns at the first
failing rule; the cascade of `if … return` statements is modelled by a cascade
of `if … then … else`.  The second rule is nested in the source
(`if (!useTaperedTransition) { if (filletRadius < minRadius) return … }`),
which is equivalent to the conjunction used here. -/
def validateSpecimen (_type : SpecimenType) (params : SpecimenParams ℚ)
    (standard : ASTMStandard) : ValidationResult ℚ :=
  if params.gaugeDiameter ≥ params.gripDiameter then
    ⟨false, .gaugeNotSmallerThanGrip⟩
  else if params.useTaperedTransition = false ∧
      params.filletRadius < (params.gripDiameter - params.gaugeDiameter) * 4 then
    ⟨false, .filletTooSmall ((params.gripDiameter - params.gaugeDiameter) * 4)⟩
  else if standard = .E466 ∧ params.gaugeLength / params.gaugeDiameter < 2 then
    ⟨false, .e466RatioTooSmall⟩
  else if standard = .E606 ∧ (params.gaugeLength / params.gaugeDiameter < 1.5 ∨
      params.gaugeLength / params.gaugeDiameter > 3) then
    ⟨false, .e606RatioOutOfRange⟩
  else if params.useTaperedTransition = true ∧
      (params.taperAngle < 7 ∨ params.taperAngle > 10) then
    ⟨false, .taperAngleOutOfRange⟩
  else
    ⟨true, .meetsStandards⟩

/-- `Point2D` from types.ts. -/
structure Point2D where
  x : ℝ
  y : ℝ

/-- `calculateTransitionLength` from profile-generator.ts (non-tapered case). -/
noncomputable def calculateTransitionLength (gripRadius gaugeRadius filletRadius : ℝ)
    (_transitionType : TransitionType) : ℝ :=
  max ((gripRadius - gaugeRadius) * 4) (filletRadius * 1.2)

/-- `calculateTaperedTransitionLength` from profile-generator.ts. -/
noncomputable def calculateTaperedTransitionLength (gripRadius gaugeRadius taperAngle : ℝ) : ℝ :=
  (gripRadius - gaugeRadius) / Real.tan (taperAngle * Real.pi / 180)

/-- `generateTransitionPoints` from profile-generator.ts: the loop
`for (let i = 1; i < 20; i++)` emits the points for `i = 1, …, 19` at
parameter `t = i / 20`, with `x` interpolated linearly and `y` eased by
`smoothT = (1 - cos(π t)) / 2`. -/
noncomputable def generateTransitionPoints (startPoint endPoint : Point2D)
    (_filletRadius : ℝ) (_transitionType : TransitionType) : List Point2D :=
  (List.range 19).map fun (i : ℕ) =>
    let t : ℝ := ((i : ℝ) + 1) / 20
    let smoothT : ℝ := (1 - Real.cos (Real.pi * t)) / 2
    { x := startPoint.x + (endPoint.x - startPoint.x) * t,
      y := startPoint.y + (endPoint.y - startPoint.y) * smoothT }

/-- `SpecimenProfile` from types.ts. -/
structure SpecimenProfile where
  points : List Point2D
  totalLength : ℝ
  gripLength : ℝ
  gaugeLength : ℝ
  transitionLength : ℝ
  gripDiameter : ℝ
  gaugeDiameter : ℝ
  filletRadius : ℝ
  isCircular : Bool
  useTaperedTransition : Bool
  taperAngle : ℝ
  latticeType : LatticeType
  latticeSize : ℝ
  latticeThickness : ℝ
  latticeOffset : ℝ

/-- `generateCircularSpecimenProfile` from profile-generator.ts.  The point
pushes of the source appear here, in the same order, as list append. -/
noncomputable def generateCircularSpecimenProfile (params : SpecimenParams ℝ) : SpecimenProfile :=
  let transitionLength :=
    if params.useTaperedTransition then
      calculateTaperedTransitionLength (params.gripDiameter / 2) (params.gaugeDiameter / 2)
        params.taperAngle
    else
      calculateTransitionLength (params.gripDiameter / 2) (params.gaugeDiameter / 2)
        params.filletRadius params.transitionType
  let totalLength := params.gripLength * 2 + params.gaugeLength + transitionLength * 2
  let leftTransition : List Point2D :=
    if params.useTaperedTransition then
      [⟨-params.gaugeLength / 2, params.gaugeDiameter / 2⟩]
    else
      generateTransitionPoints
        ⟨-params.gaugeLength / 2 - transitionLength, params.gripDiameter / 2⟩
        ⟨-params.gaugeLength / 2, params.gaugeDiameter / 2⟩
        params.filletRadius params.transitionType
  let rightTransition : List Point2D :=
    if params.useTaperedTransition then
      [⟨params.gaugeLength / 2 + transitionLength, params.gripDiameter / 2⟩]
    else
      generateTransitionPoints
        ⟨params.gaugeLength / 2, params.gaugeDiameter / 2⟩
        ⟨params.gaugeLength / 2 + transitionLength, params.gripDiameter / 2⟩
        params.filletRadius params.transitionType
  { points :=
      [⟨-totalLength / 2, 0⟩,
       ⟨-totalLength / 2, params.gripDiameter / 2⟩,
       ⟨-params.gaugeLength / 2 - transitionLength, params.gripDiameter / 2⟩]
      ++ leftTransition
      ++ [⟨-params.gaugeLength / 2, params.gaugeDiameter / 2⟩,
          ⟨params.gaugeLength / 2, params.gaugeDiameter / 2⟩]
      ++ rightTransition
      ++ [⟨params.gaugeLength / 2 + transitionLength, params.gripDiameter / 2⟩,
          ⟨totalLength / 2, params.gripDiameter / 2⟩,
          ⟨totalLength / 2, 0⟩],
    totalLength := totalLength,
    gripLength := params.gripLength,
    gaugeLength := params.gaugeLength,
    transitionLength := transitionLength,
    gripDiameter := params.gripDiameter,
    gaugeDiameter := params.gaugeDiameter,
    filletRadius := params.filletRadius,
    isCircular := true,
    useTaperedTransition := params.useTaperedTransition,
    taperAngle := params.taperAngle,
    latticeType := params.latticeType,
    latticeSize := params.latticeSize,
    latticeThickness := params.latticeThickness,
    latticeOffset := params.latticeOffset }

/-- `generateSpecimenProfile` from profile-generator.ts. -/
noncomputable def generateSpecimenProfile (_type : SpecimenType)
    (params : SpecimenParams ℝ) : SpecimenProfile :=
  generateCircularSpecimenProfile params

/-- `LatticeParams` from lattice-generators.ts / materials.ts. -/
structure LatticeParams where
  size : ℝ
  thickness : ℝ
  offset : ℝ
  radius : ℝ
  length : ℝ

/-- `calculateLatticeVolumeReduction` from lattice-generators.ts. -/
noncomputable def calculateLatticeVolumeReduction (latticeType : LatticeType)
    (params : LatticeParams) : ℝ :=
  match latticeType with
  | .none => 0
  | .simpleVertical =>
      let spacing := params.size * 2
      let numStruts : ℤ := ⌊params.length / spacing⌋ - 1
      let strutVolume := Real.pi * params.thickness * params.thickness * (params.radius * 2)
      let gaugeVolume := Real.pi * params.radius * params.radius * params.length
      ((numStruts : ℝ) * strutVolume / gaugeVolume) * 0.5
  | .vertical =>
      let holeSpacing := params.size * 2
      let numHoles : ℤ := ⌊params.length / holeSpacing⌋ - 1
      let holeVolume := Real.pi * params.thickness * params.thickness * (params.radius * 2)
      let gaugeVolume := Real.pi * params.radius * params.radius * params.length
      ((numHoles : ℝ) * holeVolume / gaugeVolume) * 0.8
  | .verticalGrid => 0.25 + params.offset * 0.2
  | .verticalCross => 0.3 + params.offset * 0.25
  | .verticalDiamond => 0.35 + params.offset * 0.3
  | .verticalGyroid => 0.4 + params.offset * 0.35

/-- Syntactic geometry trees: a record of exactly which Three.js geometries the
pipeline builds and which Boolean subtractions it applies.  `cylinder` carries
the full `THREE.CylinderGeometry` argument list (radiusTop, radiusBottom,
height, radialSegments, heightSegments, openEnded, thetaStart, thetaLength);
`rotatedZ` records `geometry.rotateZ`; `placed` records the mesh position and
Euler rotation; `subtracted` records one successful CSG subtraction. -/
inductive Geom
  | cylinder (radiusTop radiusBottom height : ℝ) (radialSegments heightSegments : ℕ)
      (openEnded : Bool) (thetaStart thetaLength : ℝ)
  | rotatedZ (g : Geom) (angle : ℝ)
  | placed (g : Geom) (px py pz rx ry rz : ℝ)
  | subtracted (base hole : Geom)

/-- A Three.js mesh as the pipeline sees it: its geometry, whether its material
is wireframe-flagged, and its attached child geometries. -/
structure Mesh where
  geometry : Geom
  wireframe : Bool
  children : List Geom

/-- The solid gauge cylinder every generator starts from:
`CylinderGeometry(radius, radius, length, 32, 1, false)` rotated by `π/2`
about Z to align with the X axis. -/
noncomputable def gaugeGeometry (params : LatticeParams) : Geom :=
  .rotatedZ (.cylinder params.radius params.radius params.length 32 1 false 0 (2 * Real.pi))
    (Real.pi / 2)

/-- The wireframe-flagged fallback mesh returned by the top-level `catch` of
`createLatticeGaugeSection`: the plain solid gauge cylinder with
`wireframe: true`. -/
noncomputable def fallbackMesh (params : LatticeParams) : Mesh :=
  { geometry := gaugeGeometry params, wireframe := true, children := [] }

/-- Left fold of successful subtractions: `csgOk i` tells whether the `i`-th
attempted CSG subtraction succeeds; on failure the running solid is kept
unchanged (the source catches the exception and continues with the next
hole). -/
def subtractFoldAux (csgOk : ℕ → Bool) : Geom → List Geom → ℕ → Geom
  | g, [], _ => g
  | g, h :: hs, i => subtractFoldAux csgOk (if csgOk i then .subtracted g h else g) hs (i + 1)

/-- The holes whose CSG operation succeeds, in order. -/
def keptAux (csgOk : ℕ → Bool) : List Geom → ℕ → List Geom
  | [], _ => []
  | h :: hs, i =>
      if csgOk i then h :: keptAux csgOk hs (i + 1) else keptAux csgOk hs (i + 1)

/-- Subtraction of every hole in a list, with no failures. -/
def subtractAll : Geom → List Geom → Geom
  | g, [] => g
  | g, h :: hs => subtractAll (.subtracted g h) hs

/-- The filtered strut/hole axial positions shared by `createSimpleVerticalLattice`
and `createDirectVerticalLattice`: `spacing = size * 2`,
`numStruts = floor(length / spacing) - 1`, loop `i` from `-numStruts/2` to
`numStruts/2` inclusive, `x = i * spacing`, skipping `x` outside
`[-length/2, length/2]`. -/
noncomputable def verticalStrutPositions (params : LatticeParams) : List ℝ :=
  let spacing := params.size * 2
  let numStruts : ℤ := ⌊params.length / spacing⌋ - 1
  ((List.range (numStruts + 1).toNat).map fun (k : ℕ) =>
    (-(numStruts : ℝ) / 2 + (k : ℝ)) * spacing).filter fun x =>
      !decide (x < -params.length / 2 ∨ x > params.length / 2)

/-- One strut cylinder of `createSimpleVerticalLattice`:
`CylinderGeometry(thickness, thickness, radius * 2.5, 8, 1)` positioned at
`(x, 0, 0)` with Euler rotation `(0, 0, π/2)`. -/
noncomputable def simpleVerticalStrutGeom (params : LatticeParams) (x : ℝ) : Geom :=
  .placed (.cylinder params.thickness params.thickness (params.radius * 2.5) 8 1 false 0
      (2 * Real.pi)) x 0 0 0 0 (Real.pi / 2)

/-- `createSimpleVerticalLattice` from lattice-generators.ts: no CSG at all —
the returned mesh keeps the plain solid gauge cylinder as its geometry and
carries the strut cylinders as attached child meshes. -/
noncomputable def createSimpleVerticalLattice (params : LatticeParams) : Mesh :=
  { geometry := gaugeGeometry params,
    wireframe := false,
    children := (verticalStrutPositions params).map (simpleVerticalStrutGeom params) }

/-- One hole cylinder of `createDirectVerticalLattice`:
`CylinderGeometry(thickness, thickness, radius * 2.5, 16, 1)` positioned at
`(x, 0, 0)` with Euler rotation `(0, 0, π/2)`. -/
noncomputable def verticalHoleGeom (params : LatticeParams) (x : ℝ) : Geom :=
  .placed (.cylinder params.thickness params.thickness (params.radius * 2.5) 16 1 false 0
      (2 * Real.pi)) x 0 0 0 0 (Real.pi / 2)

/-- `createDirectVerticalLattice` from lattice-generators.ts: one CSG
subtraction per in-range hole, each wrapped in its own `try/catch`; a failed
subtraction is skipped and the running solid kept. -/
noncomputable def createDirectVerticalLattice (params : LatticeParams)
    (csgOk : ℕ → Bool) : Mesh :=
  { geometry :=
      subtractFoldAux csgOk (gaugeGeometry params)
        ((verticalStrutPositions params).map (verticalHoleGeom params)) 0,
    wireframe := false,
    children := [] }

/-- The hole geometries of `createVerticalGridLattice`: for each in-range
`x = i * spacing` (`spacing = size * 2`, `i` from `-numX/2` to `numX/2`), first
the Y-direction holes over `y = j * spacing` with `|y| ≤ radius * 0.9`
(rotation `(π/2, 0, 0)`), then the Z-direction holes over the same offsets
(rotation `(0, 0, π/2)`), each a
`CylinderGeometry(thickness * offset, thickness * offset, radius * 2.5, 16, 1)`. -/
noncomputable def gridHoles (params : LatticeParams) : List Geom :=
  let spacing := params.size * 2
  let numX : ℤ := ⌊params.length / spacing⌋ - 1
  let numYZ : ℤ := ⌊params.radius * 2 / spacing⌋
  let xs := ((List.range (numX + 1).toNat).map fun (k : ℕ) =>
      (-(numX : ℝ) / 2 + (k : ℝ)) * spacing).filter fun x =>
        !decide (x < -params.length / 2 ∨ x > params.length / 2)
  let offs := ((List.range (numYZ + 1).toNat).map fun (j : ℕ) =>
      (-(numYZ : ℝ) / 2 + (j : ℝ)) * spacing).filter fun y =>
        !decide (|y| > params.radius * 0.9)
  xs.flatMap fun x =>
    (offs.map fun y =>
      Geom.placed (.cylinder (params.thickness * params.offset)
        (params.thickness * params.offset) (params.radius * 2.5) 16 1 false 0 (2 * Real.pi))
        x y 0 (Real.pi / 2) 0 0)
    ++ (offs.map fun z =>
      Geom.placed (.cylinder (params.thickness * params.offset)
        (params.thickness * params.offset) (params.radius * 2.5) 16 1 false 0 (2 * Real.pi))
        x 0 z 0 0 (Real.pi / 2))

/-- `createVerticalGridLattice` from lattice-generators.ts. -/
noncomputable def createVerticalGridLattice (params : LatticeParams)
    (csgOk : ℕ → Bool) : Mesh :=
  { geometry := subtractFoldAux csgOk (gaugeGeometry params) (gridHoles params) 0,
    wireframe := false,
    children := [] }

/-- The hole geometries of `createVerticalCrossLattice`: for each in-range
`x = i * spacing` (`spacing = size * 3`), a vertical hole (rotation
`(0, 0, π/2)`), a horizontal hole (rotation `(π/2, 0, 0)`), then four diagonal
holes at angles `π/4, -π/4, π/4 + π/2, -π/4 + π/2` with radius scaled by 0.8
and 12 radial segments. -/
noncomputable def crossHoles (params : LatticeParams) : List Geom :=
  let spacing := params.size * 3
  let numX : ℤ := ⌊params.length / spacing⌋ - 1
  let xs := ((List.range (numX + 1).toNat).map fun (k : ℕ) =>
      (-(numX : ℝ) / 2 + (k : ℝ)) * spacing).filter fun x =>
        !decide (x < -params.length / 2 ∨ x > params.length / 2)
  xs.flatMap fun x =>
    [Geom.placed (.cylinder (params.thickness * params.offset)
        (params.thickness * params.offset) (params.radius * 2.5) 16 1 false 0 (2 * Real.pi))
        x 0 0 0 0 (Real.pi / 2),
     Geom.placed (.cylinder (params.thickness * params.offset)
        (params.thickness * params.offset) (params.radius * 2.5) 16 1 false 0 (2 * Real.pi))
        x 0 0 (Real.pi / 2) 0 0]
    ++ ([Real.pi / 4, -(Real.pi / 4), Real.pi / 4 + Real.pi / 2,
         -(Real.pi / 4) + Real.pi / 2].map fun angle =>
      Geom.placed (.cylinder (params.thickness * params.offset * 0.8)
        (params.thickness * params.offset * 0.8) (params.radius * 2.5) 12 1 false 0 (2 * Real.pi))
        x 0 0 angle 0 (Real.pi / 2))

/-- `createVerticalCrossLattice` from lattice-generators.ts. -/
noncomputable def createVerticalCrossLattice (params : LatticeParams)
    (csgOk : ℕ → Bool) : Mesh :=
  { geometry := subtractFoldAux csgOk (gaugeGeometry params) (crossHoles params) 0,
    wireframe := false,
    children := [] }

/-- The hole geometries of `createVerticalDiamondLattice`: for each in-range
`x = i * spacing` (`spacing = size * 2.5`), eight holes at angles
`(j / 8) * 2π`. -/
noncomputable def diamondHoles (params : LatticeParams) : List Geom :=
  let spacing := params.size * 2.5
  let numX : ℤ := ⌊params.length / spacing⌋ - 1
  let xs := ((List.range (numX + 1).toNat).map fun (k : ℕ) =>
      (-(numX : ℝ) / 2 + (k : ℝ)) * spacing).filter fun x =>
        !decide (x < -params.length / 2 ∨ x > params.length / 2)
  xs.flatMap fun x =>
    (List.range 8).map fun (j : ℕ) =>
      let angle := ((j : ℝ) / 8) * Real.pi * 2
      Geom.placed (.cylinder (params.thickness * params.offset)
        (params.thickness * params.offset) (params.radius * 2.5) 12 1 false 0 (2 * Real.pi))
        x 0 0 angle 0 (Real.pi / 2)

/-- `createVerticalDiamondLattice` from lattice-generators.ts. -/
noncomputable def createVerticalDiamondLattice (params : LatticeParams)
    (csgOk : ℕ → Bool) : Mesh :=
  { geometry := subtractFoldAux csgOk (gaugeGeometry params) (diamondHoles params) 0,
    wireframe := false,
    children := [] }

/-- The hole geometries of `createVerticalGyroidLattice`: for each in-range
loop value `i` (`spacing = size * 2`, `x = i * spacing`), twelve holes at
angles `(j / 12) * 2π + sin(i * 0.5) * 0.2`, with radius
`thickness * offset * (0.8 + sin(angle) * 0.2)`, theta start `angle * 0.5` and
theta length `1.5 π`. -/
noncomputable def gyroidHoles (params : LatticeParams) : List Geom :=
  let spacing := params.size * 2
  let numX : ℤ := ⌊params.length / spacing⌋ - 1
  let loopVals := ((List.range (numX + 1).toNat).map fun (k : ℕ) =>
      -(numX : ℝ) / 2 + (k : ℝ)).filter fun i =>
        !decide (i * spacing < -params.length / 2 ∨ i * spacing > params.length / 2)
  loopVals.flatMap fun i =>
    (List.range 12).map fun (j : ℕ) =>
      let baseAngle := ((j : ℝ) / 12) * Real.pi * 2
      let curveOffset := Real.sin (i * 0.5) * 0.2
      let angle := baseAngle + curveOffset
      let holeRadius := params.thickness * params.offset * (0.8 + Real.sin angle * 0.2)
      Geom.placed (.cylinder holeRadius holeRadius (params.radius * 2.5) 12 1 false
        (angle * 0.5) (Real.pi * 1.5)) (i * spacing) 0 0 angle 0 (Real.pi / 2)

/-- `createVerticalGyroidLattice` from lattice-generators.ts. -/
noncomputable def createVerticalGyroidLattice (params : LatticeParams)
    (csgOk : ℕ → Bool) : Mesh :=
  { geometry := subtractFoldAux csgOk (gaugeGeometry params) (gyroidHoles params) 0,
    wireframe := false,
    children := [] }

/-- `createLatticeGaugeSection` from lattice-generators.ts.  `csgOk` models the
outcome of each individual `try/catch`-wrapped CSG operation;
`catastrophicFailure` models an exception escaping to the function's top-level
`catch`, which returns the plain gauge cylinder with a wireframe-flagged
material. -/
noncomputable def createLatticeGaugeSection (latticeType : LatticeType)
    (params : LatticeParams) (csgOk : ℕ → Bool) (catastrophicFailure : Bool) : Mesh :=
  if catastrophicFailure then
    fallbackMesh params
  else
    match latticeType with
    | .none => { geometry := gaugeGeometry params, wireframe := false, children := [] }
    | .simpleVertical => createSimpleVerticalLattice params
    | .vertical => createDirectVerticalLattice params csgOk
    | .verticalGrid => createVerticalGridLattice params csgOk
    | .verticalCross => createVerticalCrossLattice params csgOk
    | .verticalDiamond => createVerticalDiamondLattice params csgOk
    | .verticalGyroid => createVerticalGyroidLattice params csgOk

/-- A 3D point. -/
structure Vec3 where
  x : ℝ
  y : ℝ
  z : ℝ

/-- The axis segment occupied by one simple-vertical strut cylinder.  Each
strut is a cylinder of height `radius * 2.5` centred at `(x, 0, 0)`; its local
Y axis (the cylinder axis) is carried by the Euler rotation `(0, 0, π/2)` to
the world X direction, so the strut spans axially from `x - 1.25 * radius` to
`x + 1.25 * radius`. -/
noncomputable def simpleVerticalStrutSegments (params : LatticeParams) : List (Vec3 × Vec3) :=
  (verticalStrutPositions params).map fun x =>
    (⟨x - params.radius * 2.5 / 2, 0, 0⟩, ⟨x + params.radius * 2.5 / 2, 0, 0⟩)

/-- The cell centres visited by `generateBCCLatticeMesh` in materials.ts:
`cellsX = ceil(length / size)`, `cellsY = cellsZ = ceil(radius * 2 / size)`,
loops from `-cells/2` (possibly fractional) stepping by 1, with the centre at
the cell corner plus `size / 2` in each coordinate. -/
noncomputable def bccCellCenters (params : LatticeParams) : List Vec3 :=
  let cellsX : ℤ := ⌈params.length / params.size⌉
  let cellsY : ℤ := ⌈params.radius * 2 / params.size⌉
  let cellsZ : ℤ := ⌈params.radius * 2 / params.size⌉
  (List.range cellsX.toNat).flatMap fun (kx : ℕ) =>
    (List.range cellsY.toNat).flatMap fun (ky : ℕ) =>
      (List.range cellsZ.toNat).map fun (kz : ℕ) =>
        ⟨(-(cellsX : ℝ) / 2 + (kx : ℝ)) * params.size + params.size / 2,
         (-(cellsY : ℝ) / 2 + (ky : ℝ)) * params.size + params.size / 2,
         (-(cellsZ : ℝ) / 2 + (kz : ℝ)) * params.size + params.size / 2⟩

/-- The in-bounds test of `generateBCCLatticeMesh`: the point is skipped when
its axial coordinate leaves `[-length/2, length/2]` or its distance
`sqrt(y² + z²)` from the cylinder axis exceeds `radius`. -/
noncomputable def insideGaugeCylinder (params : LatticeParams) (v : Vec3) : Bool :=
  !decide (v.x < -params.length / 2 ∨ v.x > params.length / 2) &&
  !decide (Real.sqrt (v.y * v.y + v.z * v.z) > params.radius)

/-- The sphere centres emitted by `generateBCCLatticeMesh`: one sphere (of
radius `thickness * 0.8`) at each in-bounds cell centre. -/
noncomputable def bccSpheres (params : LatticeParams) : List Vec3 :=
  (bccCellCenters params).filter (insideGaugeCylinder params)

/-- The five candidate strut directions of `generateBCCLatticeMesh`, in source
order: `+Y, +Z, -Y, -Z` (vertical, indices 0–3) then `+X` (horizontal,
index 4). -/
noncomputable def bccDirections (size : ℝ) : List Vec3 :=
  [⟨0, size, 0⟩, ⟨0, 0, size⟩, ⟨0, -size, 0⟩, ⟨0, 0, -size⟩, ⟨size, 0, 0⟩]

/-- The strut segments emitted by `generateBCCLatticeMesh`.  A strut from an
in-bounds cell centre along direction `index` is attempted when the direction
is vertical (`index < 4`) or the `Math.random() < 0.4` draw — modelled by the
oracle `coin` — succeeds; the endpoint must itself be in bounds, and
`createStrut` drops struts shorter than 0.3. -/
noncomputable def bccStruts (params : LatticeParams) (coin : Vec3 → ℕ → Bool) :
    List (Vec3 × Vec3) :=
  (bccCellCenters params).flatMap fun center =>
    if insideGaugeCylinder params center then
      (bccDirections params.size).enum.filterMap fun d =>
        if d.1 < 4 ∨ coin center d.1 = true then
          if insideGaugeCylinder params
              ⟨center.x + d.2.x, center.y + d.2.y, center.z + d.2.z⟩ then
            if Real.sqrt ((center.x + d.2.x - center.x) ^ 2 +
                (center.y + d.2.y - center.y) ^ 2 +
                (center.z + d.2.z - center.z) ^ 2) < 0.3 then
              none
            else
              some (center, ⟨center.x + d.2.x, center.y + d.2.y, center.z + d.2.z⟩)
          else
            none
        else
          none
    else
      []

/-- The non-tapered example parameter set of the specification: gripLength 50,
gripDiameter 15, gaugeLength 30, gaugeDiameter 7, filletRadius 70. -/
noncomputable def exampleNonTaperedParams : SpecimenParams ℝ :=
  { gripLength := 50, gripDiameter := 15, gaugeLength := 30, gaugeDiameter := 7,
    filletRadius := 70, transitionType := .tangentArc, useTaperedTransition := false,
    taperAngle := 8, material := .steel, latticeType := .none, latticeSize := 3,
    latticeThickness := 0.5, latticeOffset := 0.5 }

/-- The tapered example parameter set of the specification: gripRadius 7.5,
gaugeRadius 3.5, taperAngle 8°. -/
noncomputable def exampleTaperedParams : SpecimenParams ℝ :=
  { gripLength := 50, gripDiameter := 15, gaugeLength := 30, gaugeDiameter := 7,
    filletRadius := 70, transitionType := .conical, useTaperedTransition := true,
    taperAngle := 8, material := .steel, latticeType := .none, latticeSize := 3,
    latticeThickness := 0.5, latticeOffset := 0.5 }

/-- A tapered parameter set with taperAngle 45°, outside the validator's
[7°, 10°] domain. -/
noncomputable def taperedParams45 : SpecimenParams ℝ :=
  { gripLength := 50, gripDiameter := 15, gaugeLength := 30, gaugeDiameter := 7,
    filletRadius := 70, transitionType := .conical, useTaperedTransition := true,
    taperAngle := 45, material := .steel, latticeType := .none, latticeSize := 3,
    latticeThickness := 0.5, latticeOffset := 0.5 }

/-- Lattice parameters with unit size, thickness, offset and radius and gauge
length 10. -/
noncomputable def unitLatticeParams : LatticeParams :=
  { size := 1, thickness := 1, offset := 1, radius := 1, length := 10 }

/-- Lattice parameters with size 2, thickness 1, offset 1, radius 3 and gauge
length 6: the BCC grid over these parameters has a cell centred on the gauge
axis at the origin. -/
noncomputable def bccExampleParams : LatticeParams :=
  { size := 2, thickness := 1, offset := 1, radius := 3, length := 6 }

/-!  ## Theorems  -/

lemma subtractFoldAux_eq_subtractAll (csgOk : ℕ → Bool) (hs : List Geom) :
    ∀ (g : Geom) (i : ℕ),
      subtractFoldAux csgOk g hs i = subtractAll g (keptAux csgOk hs i) := by
  induction hs with
  | nil => intro g i; rfl
  | cons h hsTail ih =>
      intro g i
      by_cases hc : csgOk i
      · simp only [subtractFoldAux, keptAux, hc, if_true, subtractAll]
        exact ih _ _
      · simp only [subtractFoldAux, keptAux, hc, if_false, Bool.false_eq_true]
        exact ih _ _

/-- Claim C1: for every `SpecimenParams` and every standard in
{E466, E606, E8}, `validateSpecimen` evaluates its rules in order and returns
at the first failing rule: (1) gauge diameter not smaller than grip diameter;
(2) for non-tapered transitions, fillet radius below the computed minimum
`(gripDiameter - gaugeDiameter) * 4`, which is carried in the message;
(3) gauge length/diameter ratio below 2 for E466, outside [1.5, 3] for E606
(E8 has no ratio rule); (4) for tapered transitions, taper angle outside
[7, 10]; (5) otherwise valid.  The function is pure (the embedding is a
function of its arguments only, so it has no side effects and cannot mutate
`params`). -/
theorem validateSpecimen_evaluates_rules_in_order (t : SpecimenType)
    (p : SpecimenParams ℚ) (s : ASTMStandard) :
    (p.gripDiameter ≤ p.gaugeDiameter →
      validateSpecimen t p s = ⟨false, .gaugeNotSmallerThanGrip⟩)
    ∧ (p.gaugeDiameter < p.gripDiameter → p.useTaperedTransition = false →
        p.filletRadius < (p.gripDiameter - p.gaugeDiameter) * 4 →
      validateSpecimen t p s = ⟨false, .filletTooSmall ((p.gripDiameter - p.gaugeDiameter) * 4)⟩)
    ∧ (p.gaugeDiameter < p.gripDiameter →
        (p.useTaperedTransition = true ∨
          (p.gripDiameter - p.gaugeDiameter) * 4 ≤ p.filletRadius) →
        s = .E466 → p.gaugeLength / p.gaugeDiameter < 2 →
      validateSpecimen t p s = ⟨false, .e466RatioTooSmall⟩)
    ∧ (p.gaugeDiameter < p.gripDiameter →
        (p.useTaperedTransition = true ∨
          (p.gripDiameter - p.gaugeDiameter) * 4 ≤ p.filletRadius) →
        s = .E606 →
        (p.gaugeLength / p.gaugeDiameter < 1.5 ∨ 3 < p.gaugeLength / p.gaugeDiameter) →
      validateSpecimen t p s = ⟨false, .e606RatioOutOfRange⟩)
    ∧ (p.gaugeDiameter < p.gripDiameter →
        (s = .E466 → 2 ≤ p.gaugeLength / p.gaugeDiameter) →
        (s = .E606 →
          1.5 ≤ p.gaugeLength / p.gaugeDiameter ∧ p.gaugeLength / p.gaugeDiameter ≤ 3) →
        p.useTaperedTransition = true →
        (p.taperAngle < 7 ∨ 10 < p.taperAngle) →
      validateSpecimen t p s = ⟨false, .taperAngleOutOfRange⟩)
    ∧ (p.gaugeDiameter < p.gripDiameter →
        (p.useTaperedTransition = false →
          (p.gripDiameter - p.gaugeDiameter) * 4 ≤ p.filletRadius) →
        (s = .E466 → 2 ≤ p.gaugeLength / p.gaugeDiameter) →
        (s = .E606 →
          1.5 ≤ p.gaugeLength / p.gaugeDiameter ∧ p.gaugeLength / p.gaugeDiameter ≤ 3) →
        (p.useTaperedTransition = true → 7 ≤ p.taperAngle ∧ p.taperAngle ≤ 10) →
      validateSpecimen t p s = ⟨true, .meetsStandards⟩) := by
  refine ⟨?_, ?_, ?_, ?_, ?_, ?_⟩
  · intro h1
    unfold validateSpecimen
    rw [if_pos h1]
  · intro h1 h2 h3
    unfold validateSpecimen
    rw [if_neg (not_le.mpr h1), if_pos ⟨h2, h3⟩]
  · intro h1 h2 h3 h4
    subst h3
    have hfil : ¬(p.useTaperedTransition = false ∧
        p.filletRadius < (p.gripDiameter - p.gaugeDiameter) * 4) := by
      rcases h2 with h2 | h2
      · rintro ⟨hfalse, -⟩
        rw [h2] at hfalse
        exact Bool.noConfusion hfalse
      · rintro ⟨-, hlt⟩
        exact absurd hlt (not_lt.mpr h2)
    have hcond : ASTMStandard.E466 = ASTMStandard.E466 ∧
        p.gaugeLength / p.gaugeDiameter < 2 := ⟨rfl, h4⟩
    unfold validateSpecimen
    rw [if_neg (not_le.mpr h1), if_neg hfil, if_pos hcond]
  · intro h1 h2 h3 h4
    subst h3
    have hfil : ¬(p.useTaperedTransition = false ∧
        p.filletRadius < (p.gripDiameter - p.gaugeDiameter) * 4) := by
      rcases h2 with h2 | h2
      · rintro ⟨hfalse, -⟩
        rw [h2] at hfalse
        exact Bool.noConfusion hfalse
      · rintro ⟨-, hlt⟩
        exact absurd hlt (not_lt.mpr h2)
    have h466 : ¬(ASTMStandard.E606 = ASTMStandard.E466 ∧
        p.gaugeLength / p.gaugeDiameter < 2) := by
      rintro ⟨h, -⟩
      cases h
    have hcond : ASTMStandard.E606 = ASTMStandard.E606 ∧
        (p.gaugeLength / p.gaugeDiameter < 1.5 ∨ p.gaugeLength / p.gaugeDiameter > 3) :=
      ⟨rfl, h4⟩
    unfold validateSpecimen
    rw [if_neg (not_le.mpr h1), if_neg hfil, if_neg h466, if_pos hcond]
  · intro h1 h2 h3 h4 h5
    have hfil : ¬(p.useTaperedTransition = false ∧
        p.filletRadius < (p.gripDiameter - p.gaugeDiameter) * 4) := by
      rintro ⟨hfalse, -⟩
      rw [h4] at hfalse
      exact Bool.noConfusion hfalse
    have h466 : ¬(s = .E466 ∧ p.gaugeLength / p.gaugeDiameter < 2) := by
      rintro ⟨hs, hr⟩
      exact absurd hr (not_lt.mpr (h2 hs))
    have h606 : ¬(s = .E606 ∧ (p.gaugeLength / p.gaugeDiameter < 1.5 ∨
        p.gaugeLength / p.gaugeDiameter > 3)) := by
      rintro ⟨hs, hor⟩
      obtain ⟨hlo, hhi⟩ := h3 hs
      rcases hor with h | h
      · exact absurd h (not_lt.mpr hlo)
      · exact absurd h (not_lt.mpr hhi)
    have hcond : p.useTaperedTransition = true ∧
        (p.taperAngle < 7 ∨ p.taperAngle > 10) := ⟨h4, h5⟩
    unfold validateSpecimen
    rw [if_neg (not_le.mpr h1), if_neg hfil, if_neg h466, if_neg h606, if_pos hcond]
  · intro h1 h2 h3 h4 h5
    have hfil : ¬(p.useTaperedTransition = false ∧
        p.filletRadius < (p.gripDiameter - p.gaugeDiameter) * 4) := by
      rintro ⟨hfalse, hlt⟩
      exact absurd hlt (not_lt.mpr (h2 hfalse))
    have h466 : ¬(s = .E466 ∧ p.gaugeLength / p.gaugeDiameter < 2) := by
      rintro ⟨hs, hr⟩
      exact absurd hr (not_lt.mpr (h3 hs))
    have h606 : ¬(s = .E606 ∧ (p.gaugeLength / p.gaugeDiameter < 1.5 ∨
        p.gaugeLength / p.gaugeDiameter > 3)) := by
      rintro ⟨hs, hor⟩
      obtain ⟨hlo, hhi⟩ := h4 hs
      rcases hor with h | h
      · exact absurd h (not_lt.mpr hlo)
      · exact absurd h (not_lt.mpr hhi)
    have htap : ¬(p.useTaperedTransition = true ∧ (p.taperAngle < 7 ∨ p.taperAngle > 10)) := by
      rintro ⟨ht, hor⟩
      obtain ⟨h7, h10⟩ := h5 ht
      rcases hor with h | h
      · exact absurd h (not_lt.mpr h7)
      · exact absurd h (not_lt.mpr h10)
    unfold validateSpecimen
    rw [if_neg (not_le.mpr h1), if_neg hfil, if_neg h466, if_neg h606, if_neg htap]

/-- Claim C2: for every non-tapered `SpecimenParams` with
`gaugeDiameter < gripDiameter` and positive grip and gauge lengths, the
generated profile has
`transitionLength = max((gripDiameter/2 - gaugeDiameter/2) * 4, filletRadius * 1.2)`
and `totalLength = 2 * gripLength + gaugeLength + 2 * transitionLength`. -/
theorem nonTapered_transition_and_total_length (p : SpecimenParams ℝ)
    (hnt : p.useTaperedTransition = false)
    (hd : p.gaugeDiameter < p.gripDiameter)
    (hgrip : 0 < p.gripLength) (hgauge : 0 < p.gaugeLength) :
    (generateSpecimenProfile .circular p).transitionLength
        = max ((p.gripDiameter / 2 - p.gaugeDiameter / 2) * 4) (p.filletRadius * 1.2)
    ∧ (generateSpecimenProfile .circular p).totalLength
        = 2 * p.gripLength + p.gaugeLength
          + 2 * (generateSpecimenProfile .circular p).transitionLength := by
  constructor
  · simp [generateSpecimenProfile, generateCircularSpecimenProfile, hnt,
      calculateTransitionLength]
  · simp only [generateSpecimenProfile, generateCircularSpecimenProfile, hnt,
      Bool.false_eq_true, if_false]
    ring

/-- Witness for C2: at the specification's example parameters
(gripLength 50, gripDiameter 15, gaugeLength 30, gaugeDiameter 7,
filletRadius 70) the transition length is `max(16, 84) = 84` and the total
length is `100 + 30 + 168 = 298`. -/
theorem nonTapered_transition_and_total_length_witness :
    (generateSpecimenProfile .circular exampleNonTaperedParams).transitionLength = 84
    ∧ (generateSpecimenProfile .circular exampleNonTaperedParams).totalLength = 298 := by
  have h := nonTapered_transition_and_total_length exampleNonTaperedParams rfl
    (by norm_num [exampleNonTaperedParams]) (by norm_num [exampleNonTaperedParams])
    (by norm_num [exampleNonTaperedParams])
  have h84 : (generateSpecimenProfile .circular exampleNonTaperedParams).transitionLength
      = 84 := by
    rw [h.1]
    rw [show exampleNonTaperedParams.gripDiameter = 15 from rfl,
      show exampleNonTaperedParams.gaugeDiameter = 7 from rfl,
      show exampleNonTaperedParams.filletRadius = 70 from rfl]
    rw [show ((15:ℝ) / 2 - 7 / 2) * 4 = 16 by norm_num, show (70:ℝ) * 1.2 = 84 by norm_num]
    exact max_eq_right (by norm_num)
  refine ⟨h84, ?_⟩
  rw [h.2, h84]
  norm_num [exampleNonTaperedParams]

/-- Counterexample for C4: at size 1, thickness 10, offset 1, radius 1 and
length 10 (all positive), the simple-vertical branch of
`calculateLatticeVolumeReduction` returns 40, far outside [0, 1). -/
theorem volumeReduction_escapes_unit_interval :
    (0:ℝ) < (⟨1, 10, 1, 1, 10⟩ : LatticeParams).size
    ∧ (0:ℝ) < (⟨1, 10, 1, 1, 10⟩ : LatticeParams).thickness
    ∧ (0:ℝ) < (⟨1, 10, 1, 1, 10⟩ : LatticeParams).offset
    ∧ (0:ℝ) < (⟨1, 10, 1, 1, 10⟩ : LatticeParams).radius
    ∧ (0:ℝ) < (⟨1, 10, 1, 1, 10⟩ : LatticeParams).length
    ∧ calculateLatticeVolumeReduction .simpleVertical ⟨1, 10, 1, 1, 10⟩ = 40
    ∧ ¬ (calculateLatticeVolumeReduction .simpleVertical ⟨1, 10, 1, 1, 10⟩ < 1) := by
  have hval : calculateLatticeVolumeReduction .simpleVertical ⟨1, 10, 1, 1, 10⟩ = 40 := by
    simp only [calculateLatticeVolumeReduction]
    norm_num
    have hπ : Real.pi ≠ 0 := Real.pi_ne_zero
    field_simp
    ring
  refine ⟨by norm_num, by norm_num, by norm_num, by norm_num, by norm_num, hval, ?_⟩
  rw [hval]
  norm_num

/-- Claim C4 (amended): `calculateLatticeVolumeReduction("none", params) = 0`
always; the four pattern families (grid, cross, diamond, gyroid) return
`base + offset · scale`, which lies in [0, 1) whenever `0 < offset ≤ 1`; the
strut/hole families (simple-vertical, vertical) are not bounded by [0, 1)
(see the counterexample). -/
theorem volumeReduction_none_and_pattern_families (p : LatticeParams)
    (hoff0 : 0 < p.offset) (hoff1 : p.offset ≤ 1) :
    calculateLatticeVolumeReduction .none p = 0
    ∧ (0 ≤ calculateLatticeVolumeReduction .verticalGrid p
        ∧ calculateLatticeVolumeReduction .verticalGrid p < 1)
    ∧ (0 ≤ calculateLatticeVolumeReduction .verticalCross p
        ∧ calculateLatticeVolumeReduction .verticalCross p < 1)
    ∧ (0 ≤ calculateLatticeVolumeReduction .verticalDiamond p
        ∧ calculateLatticeVolumeReduction .verticalDiamond p < 1)
    ∧ (0 ≤ calculateLatticeVolumeReduction .verticalGyroid p
        ∧ calculateLatticeVolumeReduction .verticalGyroid p < 1) := by
  refine ⟨rfl, ?_, ?_, ?_, ?_⟩ <;> constructor <;>
    simp only [calculateLatticeVolumeReduction] <;> nlinarith

/-- Witness for C4 (amended): at size 1, thickness 1, offset 1/2, radius 1,
length 10, the none family reports 0 and the four pattern families report
fractions inside [0, 1). -/
theorem volumeReduction_none_and_pattern_families_witness :
    calculateLatticeVolumeReduction .none ⟨1, 1, 1/2, 1, 10⟩ = 0
    ∧ (0 ≤ calculateLatticeVolumeReduction .verticalGrid ⟨1, 1, 1/2, 1, 10⟩
        ∧ calculateLatticeVolumeReduction .verticalGrid ⟨1, 1, 1/2, 1, 10⟩ < 1)
    ∧ (0 ≤ calculateLatticeVolumeReduction .verticalCross ⟨1, 1, 1/2, 1, 10⟩
        ∧ calculateLatticeVolumeReduction .verticalCross ⟨1, 1, 1/2, 1, 10⟩ < 1)
    ∧ (0 ≤ calculateLatticeVolumeReduction .verticalDiamond ⟨1, 1, 1/2, 1, 10⟩
        ∧ calculateLatticeVolumeReduction .verticalDiamond ⟨1, 1, 1/2, 1, 10⟩ < 1)
    ∧ (0 ≤ calculateLatticeVolumeReduction .verticalGyroid ⟨1, 1, 1/2, 1, 10⟩
        ∧ calculateLatticeVolumeReduction .verticalGyroid ⟨1, 1, 1/2, 1, 10⟩ < 1) :=
  volumeReduction_none_and_pattern_families ⟨1, 1, 1/2, 1, 10⟩ (by norm_num) (by norm_num)

/-- Claim C7: the lattice/Boolean pipeline always returns a mesh.  A
catastrophic failure of the whole generation/combination step yields the
plain solid gauge cylinder flagged as wireframe; without catastrophic failure
the result is never wireframe-flagged; and when an individual Boolean
operation fails, only that hole is discarded — the iterative subtraction with
per-operation failures equals the plain subtraction of exactly the holes
whose operations succeed, continuing from the last known-good solid. -/
theorem latticePipeline_failure_semantics (t : LatticeType) (p : LatticeParams)
    (csgOk : ℕ → Bool) :
    createLatticeGaugeSection t p csgOk true = fallbackMesh p
    ∧ (fallbackMesh p).geometry = gaugeGeometry p
    ∧ (fallbackMesh p).wireframe = true
    ∧ (createLatticeGaugeSection t p csgOk false).wireframe = false
    ∧ (createDirectVerticalLattice p csgOk).geometry
        = subtractAll (gaugeGeometry p)
            (keptAux csgOk ((verticalStrutPositions p).map (verticalHoleGeom p)) 0) := by
  refine ⟨rfl, rfl, rfl, ?_, subtractFoldAux_eq_subtractAll csgOk _ _ 0⟩
  cases t <;> rfl

/-- Claim C9 (amended): each non-tapered transition region is sampled at
exactly 19 interior points (the source loop `for (i = 1; i < 20; i++)` of
`numPoints = 20`), and the `i`-th emitted point (0-based) is taken at
parameter `t = (i+1)/20`, with `x` the linear interpolation of the endpoint
`x` values and `y` eased by `smoothT = (1 - cos(π t)) / 2` applied to the
endpoint `y` values. -/
theorem generateTransitionPoints_sampling (s e : Point2D) (f : ℝ)
    (tt : TransitionType) (i : Fin 19) :
    (generateTransitionPoints s e f tt).length = 19
    ∧ (generateTransitionPoints s e f tt).getD (i : ℕ) ⟨0, 0⟩
        = ⟨s.x + (e.x - s.x) * (((i : ℕ) + 1 : ℝ) / 20),
           s.y + (e.y - s.y) * ((1 - Real.cos (Real.pi * (((i : ℕ) + 1 : ℝ) / 20))) / 2)⟩ := by
  constructor
  · unfold generateTransitionPoints
    rw [List.length_map, List.length_range]
  · have h19 : (i : ℕ) < 19 := i.2
    unfold generateTransitionPoints
    rw [List.getD_eq_getElem?_getD, List.getElem?_map, List.getElem?_range h19]
    rfl

/-- Counterexample for C9: the transition region is not sampled at 20 interior
points — at any concrete endpoints the emitted list has 19 points, not 20. -/
theorem generateTransitionPoints_length_not_twenty :
    (generateTransitionPoints ⟨0, 0⟩ ⟨1, 1⟩ 5 .tangentArc).length ≠ 20 := by
  unfold generateTransitionPoints
  rw [List.length_map, List.length_range]
  norm_num

lemma sqrt_four_eq_two : Real.sqrt 4 = 2 := by
  rw [show (4:ℝ) = 2 ^ 2 by norm_num, Real.sqrt_sq (by norm_num : (0:ℝ) ≤ 2)]

lemma insideGaugeCylinder_iff (p : LatticeParams) (v : Vec3) :
    insideGaugeCylinder p v = true ↔
      (-p.length / 2 ≤ v.x ∧ v.x ≤ p.length / 2 ∧
        Real.sqrt (v.y * v.y + v.z * v.z) ≤ p.radius) := by
  simp only [insideGaugeCylinder, Bool.and_eq_true, Bool.not_eq_true',
    decide_eq_false_iff_not, not_or, not_lt, and_assoc]

/-- Claim C5 (amended): every sphere centre and every strut endpoint emitted
by the BCC lattice generator of materials.ts lies inside the bounding
cylinder — axial coordinate in [-length/2, length/2] and radial distance
`sqrt(y² + z²)` at most `radius` — for every choice of random draws.  (The
property does not hold for every lattice family: see the counterexample on
`createSimpleVerticalLattice`.) -/
theorem bccPrimitives_within_cylinder (p : LatticeParams) (coin : Vec3 → ℕ → Bool) :
    (∀ c ∈ bccSpheres p,
      -p.length / 2 ≤ c.x ∧ c.x ≤ p.length / 2 ∧
        Real.sqrt (c.y * c.y + c.z * c.z) ≤ p.radius)
    ∧ (∀ s ∈ bccStruts p coin,
        (-p.length / 2 ≤ s.1.x ∧ s.1.x ≤ p.length / 2 ∧
          Real.sqrt (s.1.y * s.1.y + s.1.z * s.1.z) ≤ p.radius)
        ∧ (-p.length / 2 ≤ s.2.x ∧ s.2.x ≤ p.length / 2 ∧
          Real.sqrt (s.2.y * s.2.y + s.2.z * s.2.z) ≤ p.radius)) := by
  constructor
  · intro c hc
    unfold bccSpheres at hc
    exact (insideGaugeCylinder_iff p c).mp (List.of_mem_filter hc)
  · intro s hs
    unfold bccStruts at hs
    rw [List.mem_flatMap] at hs
    obtain ⟨center, -, hs⟩ := hs
    by_cases hin : insideGaugeCylinder p center = true
    · rw [if_pos hin] at hs
      rw [List.mem_filterMap] at hs
      obtain ⟨d, -, hsome⟩ := hs
      split_ifs at hsome with hcoin hinend hshort
      rw [Option.some_inj] at hsome
      subst hsome
      exact ⟨(insideGaugeCylinder_iff p center).mp hin,
        (insideGaugeCylinder_iff p _).mp hinend⟩
    · rw [if_neg hin] at hs
      exact absurd hs (List.not_mem_nil s)

/-- Counterexample for C5: at size 1, thickness 1, offset 1, radius 1,
length 10, `createSimpleVerticalLattice` emits a strut whose axis segment
reaches axial coordinate 5.25, outside [-length/2, length/2] = [-5, 5] (the
strut cylinders have height `radius * 2.5` and are never clipped against the
gauge bounds). -/
theorem simpleVerticalStrut_escapes_cylinder :
    ∃ s ∈ simpleVerticalStrutSegments unitLatticeParams,
      unitLatticeParams.length / 2 < s.2.x := by
  have h4 : (4 : ℝ) ∈ verticalStrutPositions unitLatticeParams := by
    simp only [verticalStrutPositions]
    rw [List.mem_filter]
    constructor
    · rw [List.mem_map]
      refine ⟨4, ?_, ?_⟩
      · rw [List.mem_range]
        norm_num [unitLatticeParams]
      · norm_num [unitLatticeParams]
    · simp only [Bool.not_eq_true', decide_eq_false_iff_not, not_or, not_lt]
      norm_num [unitLatticeParams]
  refine ⟨(⟨4 - unitLatticeParams.radius * 2.5 / 2, 0, 0⟩,
    ⟨4 + unitLatticeParams.radius * 2.5 / 2, 0, 0⟩), ?_, ?_⟩
  · unfold simpleVerticalStrutSegments
    rw [List.mem_map]
    exact ⟨4, h4, rfl⟩
  · show unitLatticeParams.length / 2 < 4 + unitLatticeParams.radius * 2.5 / 2
    norm_num [unitLatticeParams]

lemma bccStruts_falseCoin_vertical (p : LatticeParams) (coin : Vec3 → ℕ → Bool)
    (hfalse : ∀ v n, coin v n = false) (s : Vec3 × Vec3)
    (hs : s ∈ bccStruts p coin) : s.2.x = s.1.x := by
  unfold bccStruts at hs
  rw [List.mem_flatMap] at hs
  obtain ⟨center, -, hs⟩ := hs
  by_cases hin : insideGaugeCylinder p center = true
  · rw [if_pos hin] at hs
    rw [List.mem_filterMap] at hs
    obtain ⟨d, hd, hsome⟩ := hs
    split_ifs at hsome with hcoin hinend hshort
    rw [Option.some_inj] at hsome
    subst hsome
    have hd4 : d.1 < 4 := by
      rcases hcoin with h | h
      · exact h
      · rw [hfalse] at h
        exact absurd h (by simp)
    have hdirs : (bccDirections p.size).enum
        = [(0, ⟨0, p.size, 0⟩), (1, ⟨0, 0, p.size⟩), (2, ⟨0, -p.size, 0⟩),
           (3, ⟨0, 0, -p.size⟩), (4, ⟨p.size, 0, 0⟩)] := rfl
    rw [hdirs] at hd
    simp only [List.mem_cons, List.not_mem_nil, or_false] at hd
    rcases hd with rfl | rfl | rfl | rfl | rfl
    · simp
    · simp
    · simp
    · simp
    · exact absurd hd4 (by norm_num)
  · rw [if_neg hin] at hs
    exact absurd hs (List.not_mem_nil s)

lemma mem_bccCellCenters_origin :
    (⟨0, 0, 0⟩ : Vec3) ∈ bccCellCenters bccExampleParams := by
  simp only [bccCellCenters]
  rw [List.mem_flatMap]
  refine ⟨1, ?_, ?_⟩
  · rw [List.mem_range]
    norm_num [bccExampleParams]
  · rw [List.mem_flatMap]
    refine ⟨1, ?_, ?_⟩
    · rw [List.mem_range]
      norm_num [bccExampleParams]
    · rw [List.mem_map]
      refine ⟨1, ?_, ?_⟩
      · rw [List.mem_range]
        norm_num [bccExampleParams]
      · simp only [Vec3.mk.injEq]
        norm_num [bccExampleParams]

lemma insideGaugeCylinder_origin :
    insideGaugeCylinder bccExampleParams (⟨0, 0, 0⟩ : Vec3) = true := by
  rw [insideGaugeCylinder_iff]
  refine ⟨by norm_num [bccExampleParams], by norm_num [bccExampleParams], ?_⟩
  rw [show ((⟨0, 0, 0⟩ : Vec3).y * (⟨0, 0, 0⟩ : Vec3).y +
    (⟨0, 0, 0⟩ : Vec3).z * (⟨0, 0, 0⟩ : Vec3).z) = 0 by norm_num, Real.sqrt_zero]
  norm_num [bccExampleParams]

lemma mem_bccStruts_horizontal :
    ((⟨0, 0, 0⟩ : Vec3), (⟨2, 0, 0⟩ : Vec3)) ∈
      bccStruts bccExampleParams (fun _ _ => true) := by
  unfold bccStruts
  rw [List.mem_flatMap]
  refine ⟨⟨0, 0, 0⟩, mem_bccCellCenters_origin, ?_⟩
  rw [if_pos insideGaugeCylinder_origin]
  rw [List.mem_filterMap]
  refine ⟨(4, ⟨bccExampleParams.size, 0, 0⟩), ?_, ?_⟩
  · have hdirs : (bccDirections bccExampleParams.size).enum
        = [(0, ⟨0, bccExampleParams.size, 0⟩), (1, ⟨0, 0, bccExampleParams.size⟩),
           (2, ⟨0, -bccExampleParams.size, 0⟩), (3, ⟨0, 0, -bccExampleParams.size⟩),
           (4, ⟨bccExampleParams.size, 0, 0⟩)] := rfl
    rw [hdirs]
    simp
  · rw [if_pos (Or.inr rfl)]
    have hinend : insideGaugeCylinder bccExampleParams
        ⟨(⟨0, 0, 0⟩ : Vec3).x + (⟨bccExampleParams.size, 0, 0⟩ : Vec3).x,
         (⟨0, 0, 0⟩ : Vec3).y + (⟨bccExampleParams.size, 0, 0⟩ : Vec3).y,
         (⟨0, 0, 0⟩ : Vec3).z + (⟨bccExampleParams.size, 0, 0⟩ : Vec3).z⟩ = true := by
      rw [insideGaugeCylinder_iff]
      refine ⟨by norm_num [bccExampleParams], by norm_num [bccExampleParams], ?_⟩
      show Real.sqrt ((0 + 0) * (0 + 0) + (0 + 0) * (0 + 0)) ≤ bccExampleParams.radius
      rw [show ((0 + 0) * (0 + 0) + (0 + 0) * (0 + 0) : ℝ) = 0 by norm_num, Real.sqrt_zero]
      norm_num [bccExampleParams]
    rw [if_pos hinend]
    have hlong : ¬ (Real.sqrt (((⟨0, 0, 0⟩ : Vec3).x + (⟨bccExampleParams.size, 0, 0⟩ : Vec3).x
          - (⟨0, 0, 0⟩ : Vec3).x) ^ 2 +
        ((⟨0, 0, 0⟩ : Vec3).y + (⟨bccExampleParams.size, 0, 0⟩ : Vec3).y
          - (⟨0, 0, 0⟩ : Vec3).y) ^ 2 +
        ((⟨0, 0, 0⟩ : Vec3).z + (⟨bccExampleParams.size, 0, 0⟩ : Vec3).z
          - (⟨0, 0, 0⟩ : Vec3).z) ^ 2) < 0.3) := by
      rw [show (((⟨0, 0, 0⟩ : Vec3).x + (⟨bccExampleParams.size, 0, 0⟩ : Vec3).x
          - (⟨0, 0, 0⟩ : Vec3).x) ^ 2 +
        ((⟨0, 0, 0⟩ : Vec3).y + (⟨bccExampleParams.size, 0, 0⟩ : Vec3).y
          - (⟨0, 0, 0⟩ : Vec3).y) ^ 2 +
        ((⟨0, 0, 0⟩ : Vec3).z + (⟨bccExampleParams.size, 0, 0⟩ : Vec3).z
          - (⟨0, 0, 0⟩ : Vec3).z) ^ 2 : ℝ) = 4 by norm_num [bccExampleParams],
        sqrt_four_eq_two]
      norm_num
    rw [if_neg hlong]
    simp only [Option.some.injEq, Prod.mk.injEq, Vec3.mk.injEq]
    norm_num [bccExampleParams]

/-- Counterexample for C6: lattice generation is not deterministic as a
function of the parameters alone.  The BCC generator consults the unseeded
`Math.random()` for horizontal strut inclusion; two runs with identical
parameters whose draws differ (all-true versus all-false) produce different
strut sets. -/
theorem bccStruts_differ_between_random_draws :
    bccStruts bccExampleParams (fun _ _ => true)
      ≠ bccStruts bccExampleParams (fun _ _ => false) := by
  intro heq
  have hmem := mem_bccStruts_horizontal
  rw [heq] at hmem
  have hvert := bccStruts_falseCoin_vertical bccExampleParams (fun _ _ => false)
    (fun _ _ => rfl) _ hmem
  norm_num at hvert

/-- Claim C6 (amended): identical parameters yield identical lattices only up
to the random draws — the BCC strut set is a deterministic function of the
parameters and the draw oracle, and the vertical strut connections do not
consult the draws at all: the vertical strut from the origin cell is emitted
for every possible sequence of draws.  Inclusion of horizontal struts does
depend on the unseeded draws (see the counterexample). -/
theorem bccVerticalStrut_included_for_every_coin (coin : Vec3 → ℕ → Bool) :
    ((⟨0, 0, 0⟩ : Vec3), (⟨0, 2, 0⟩ : Vec3)) ∈ bccStruts bccExampleParams coin := by
  unfold bccStruts
  rw [List.mem_flatMap]
  refine ⟨⟨0, 0, 0⟩, mem_bccCellCenters_origin, ?_⟩
  rw [if_pos insideGaugeCylinder_origin]
  rw [List.mem_filterMap]
  refine ⟨(0, ⟨0, bccExampleParams.size, 0⟩), ?_, ?_⟩
  · have hdirs : (bccDirections bccExampleParams.size).enum
        = [(0, ⟨0, bccExampleParams.size, 0⟩), (1, ⟨0, 0, bccExampleParams.size⟩),
           (2, ⟨0, -bccExampleParams.size, 0⟩), (3, ⟨0, 0, -bccExampleParams.size⟩),
           (4, ⟨bccExampleParams.size, 0, 0⟩)] := rfl
    rw [hdirs]
    simp
  · rw [if_pos (Or.inl (by norm_num))]
    have hinend : insideGaugeCylinder bccExampleParams
        ⟨(⟨0, 0, 0⟩ : Vec3).x + (⟨0, bccExampleParams.size, 0⟩ : Vec3).x,
         (⟨0, 0, 0⟩ : Vec3).y + (⟨0, bccExampleParams.size, 0⟩ : Vec3).y,
         (⟨0, 0, 0⟩ : Vec3).z + (⟨0, bccExampleParams.size, 0⟩ : Vec3).z⟩ = true := by
      rw [insideGaugeCylinder_iff]
      refine ⟨by norm_num [bccExampleParams], by norm_num [bccExampleParams], ?_⟩
      show Real.sqrt ((0 + bccExampleParams.size) * (0 + bccExampleParams.size) +
        (0 + 0) * (0 + 0)) ≤ bccExampleParams.radius
      rw [show ((0 + bccExampleParams.size) * (0 + bccExampleParams.size) +
        (0 + 0) * (0 + 0) : ℝ) = 4 by norm_num [bccExampleParams], sqrt_four_eq_two]
      norm_num [bccExampleParams]
    rw [if_pos hinend]
    have hlong : ¬ (Real.sqrt (((⟨0, 0, 0⟩ : Vec3).x + (⟨0, bccExampleParams.size, 0⟩ : Vec3).x
          - (⟨0, 0, 0⟩ : Vec3).x) ^ 2 +
        ((⟨0, 0, 0⟩ : Vec3).y + (⟨0, bccExampleParams.size, 0⟩ : Vec3).y
          - (⟨0, 0, 0⟩ : Vec3).y) ^ 2 +
        ((⟨0, 0, 0⟩ : Vec3).z + (⟨0, bccExampleParams.size, 0⟩ : Vec3).z
          - (⟨0, 0, 0⟩ : Vec3).z) ^ 2) < 0.3) := by
      rw [show (((⟨0, 0, 0⟩ : Vec3).x + (⟨0, bccExampleParams.size, 0⟩ : Vec3).x
          - (⟨0, 0, 0⟩ : Vec3).x) ^ 2 +
        ((⟨0, 0, 0⟩ : Vec3).y + (⟨0, bccExampleParams.size, 0⟩ : Vec3).y
          - (⟨0, 0, 0⟩ : Vec3).y) ^ 2 +
        ((⟨0, 0, 0⟩ : Vec3).z + (⟨0, bccExampleParams.size, 0⟩ : Vec3).z
          - (⟨0, 0, 0⟩ : Vec3).z) ^ 2 : ℝ) = 4 by norm_num [bccExampleParams],
        sqrt_four_eq_two]
      norm_num
    rw [if_neg hlong]
    simp only [Option.some.injEq, Prod.mk.injEq, Vec3.mk.injEq]
    norm_num [bccExampleParams]

lemma generateTransitionPoints_x_bounds (s e : Point2D) (f : ℝ) (tt : TransitionType)
    (h : s.x ≤ e.x) :
    ∀ q ∈ generateTransitionPoints s e f tt, s.x ≤ q.x ∧ q.x ≤ e.x := by
  intro q hq
  unfold generateTransitionPoints at hq
  rw [List.mem_map] at hq
  obtain ⟨i, hi, rfl⟩ := hq
  rw [List.mem_range] at hi
  have hi18 : (i : ℝ) ≤ 18 := by exact_mod_cast Nat.lt_succ_iff.mp hi
  have ht0 : (0 : ℝ) ≤ ((i : ℝ) + 1) / 20 := by positivity
  have ht1 : ((i : ℝ) + 1) / 20 ≤ 1 := by
    rw [div_le_one (by norm_num : (0:ℝ) < 20)]
    linarith
  have hd0 : 0 ≤ e.x - s.x := sub_nonneg.mpr h
  constructor
  · show s.x ≤ s.x + (e.x - s.x) * (((i : ℝ) + 1) / 20)
    nlinarith [mul_nonneg hd0 ht0]
  · show s.x + (e.x - s.x) * (((i : ℝ) + 1) / 20) ≤ e.x
    nlinarith [mul_le_of_le_one_right hd0 ht1]

lemma generateTransitionPoints_x_pairwise (s e : Point2D) (f : ℝ) (tt : TransitionType)
    (h : s.x ≤ e.x) :
    List.Pairwise (fun a b => a.x ≤ b.x) (generateTransitionPoints s e f tt) := by
  unfold generateTransitionPoints
  rw [List.pairwise_map]
  have hd0 : 0 ≤ e.x - s.x := sub_nonneg.mpr h
  refine (List.pairwise_lt_range 19).imp ?_
  intro a b hab
  show s.x + (e.x - s.x) * (((a : ℝ) + 1) / 20)
      ≤ s.x + (e.x - s.x) * (((b : ℝ) + 1) / 20)
  have hab1 : (a : ℝ) ≤ (b : ℝ) := by exact_mod_cast le_of_lt hab
  have ht : ((a : ℝ) + 1) / 20 ≤ ((b : ℝ) + 1) / 20 := by linarith
  nlinarith [mul_le_mul_of_nonneg_left ht hd0]

lemma pairwise_append_pt (l₁ l₂ : List Point2D) (m : ℝ)
    (h₁ : List.Pairwise (fun a b => a.x ≤ b.x) l₁)
    (h₂ : List.Pairwise (fun a b => a.x ≤ b.x) l₂)
    (hb₁ : ∀ a ∈ l₁, a.x ≤ m) (hb₂ : ∀ b ∈ l₂, m ≤ b.x) :
    List.Pairwise (fun a b => a.x ≤ b.x) (l₁ ++ l₂) :=
  List.pairwise_append.mpr ⟨h₁, h₂, fun a ha b hb => le_trans (hb₁ a ha) (hb₂ b hb)⟩

lemma pairwise_profile_assembly (gripL gaugeL T gripR gaugeR : ℝ)
    (leftT rightT : List Point2D)
    (hgrip : 0 ≤ gripL) (hgauge : 0 ≤ gaugeL) (hT : 0 ≤ T)
    (hlP : List.Pairwise (fun a b => a.x ≤ b.x) leftT)
    (hrP : List.Pairwise (fun a b => a.x ≤ b.x) rightT)
    (hlB : ∀ q ∈ leftT, -gaugeL / 2 - T ≤ q.x ∧ q.x ≤ -gaugeL / 2)
    (hrB : ∀ q ∈ rightT, gaugeL / 2 ≤ q.x ∧ q.x ≤ gaugeL / 2 + T) :
    List.Pairwise (fun a b => a.x ≤ b.x)
      (([⟨-(gripL * 2 + gaugeL + T * 2) / 2, 0⟩,
         ⟨-(gripL * 2 + gaugeL + T * 2) / 2, gripR⟩,
         ⟨-gaugeL / 2 - T, gripR⟩] : List Point2D)
       ++ leftT
       ++ [⟨-gaugeL / 2, gaugeR⟩, ⟨gaugeL / 2, gaugeR⟩]
       ++ rightT
       ++ [⟨gaugeL / 2 + T, gripR⟩, ⟨(gripL * 2 + gaugeL + T * 2) / 2, gripR⟩,
           ⟨(gripL * 2 + gaugeL + T * 2) / 2, 0⟩]) := by
  have hCP : List.Pairwise (fun a b : Point2D => a.x ≤ b.x)
      ([⟨-gaugeL / 2, gaugeR⟩, ⟨gaugeL / 2, gaugeR⟩] : List Point2D) := by
    refine List.pairwise_cons.mpr ⟨?_, List.pairwise_singleton _ _⟩
    intro b hb
    rw [List.mem_singleton] at hb
    subst hb
    show -gaugeL / 2 ≤ gaugeL / 2
    linarith
  have hEP : List.Pairwise (fun a b : Point2D => a.x ≤ b.x)
      ([⟨gaugeL / 2 + T, gripR⟩, ⟨(gripL * 2 + gaugeL + T * 2) / 2, gripR⟩,
        ⟨(gripL * 2 + gaugeL + T * 2) / 2, 0⟩] : List Point2D) := by
    refine List.pairwise_cons.mpr ⟨?_, List.pairwise_cons.mpr ⟨?_, List.pairwise_singleton _ _⟩⟩
    · intro b hb
      simp only [List.mem_cons, List.not_mem_nil, or_false] at hb
      rcases hb with rfl | rfl
      · show gaugeL / 2 + T ≤ (gripL * 2 + gaugeL + T * 2) / 2
        linarith
      · show gaugeL / 2 + T ≤ (gripL * 2 + gaugeL + T * 2) / 2
        linarith
    · intro b hb
      rw [List.mem_singleton] at hb
      subst hb
      show (gripL * 2 + gaugeL + T * 2) / 2 ≤ (gripL * 2 + gaugeL + T * 2) / 2
      linarith
  have hAP : List.Pairwise (fun a b : Point2D => a.x ≤ b.x)
      ([⟨-(gripL * 2 + gaugeL + T * 2) / 2, 0⟩,
        ⟨-(gripL * 2 + gaugeL + T * 2) / 2, gripR⟩,
        ⟨-gaugeL / 2 - T, gripR⟩] : List Point2D) := by
    refine List.pairwise_cons.mpr ⟨?_, List.pairwise_cons.mpr ⟨?_, List.pairwise_singleton _ _⟩⟩
    · intro b hb
      simp only [List.mem_cons, List.not_mem_nil, or_false] at hb
      rcases hb with rfl | rfl
      · show -(gripL * 2 + gaugeL + T * 2) / 2 ≤ -(gripL * 2 + gaugeL + T * 2) / 2
        linarith
      · show -(gripL * 2 + gaugeL + T * 2) / 2 ≤ -gaugeL / 2 - T
        linarith
    · intro b hb
      rw [List.mem_singleton] at hb
      subst hb
      show -(gripL * 2 + gaugeL + T * 2) / 2 ≤ -gaugeL / 2 - T
      linarith
  rw [List.append_assoc, List.append_assoc, List.append_assoc]
  refine pairwise_append_pt _ _ (-gaugeL / 2 - T) hAP ?_ ?_ ?_
  · -- leftT ++ (C ++ (rightT ++ E))
    refine pairwise_append_pt _ _ (-gaugeL / 2) hlP ?_ (fun q hq => (hlB q hq).2) ?_
    · refine pairwise_append_pt _ _ (gaugeL / 2) hCP ?_ ?_ ?_
      · refine pairwise_append_pt _ _ (gaugeL / 2 + T) hrP hEP
          (fun q hq => (hrB q hq).2) ?_
        intro b hb
        simp only [List.mem_cons, List.not_mem_nil, or_false] at hb
        rcases hb with rfl | rfl | rfl
        · show gaugeL / 2 + T ≤ gaugeL / 2 + T
          linarith
        · show gaugeL / 2 + T ≤ (gripL * 2 + gaugeL + T * 2) / 2
          linarith
        · show gaugeL / 2 + T ≤ (gripL * 2 + gaugeL + T * 2) / 2
          linarith
      · intro a ha
        simp only [List.mem_cons, List.not_mem_nil, or_false] at ha
        rcases ha with rfl | rfl
        · show -gaugeL / 2 ≤ gaugeL / 2
          linarith
        · show gaugeL / 2 ≤ gaugeL / 2
          linarith
      · intro b hb
        rw [List.mem_append] at hb
        rcases hb with hb | hb
        · exact le_trans (by linarith) (hrB b hb).1
        · simp only [List.mem_cons, List.not_mem_nil, or_false] at hb
          rcases hb with rfl | rfl | rfl
          · show gaugeL / 2 ≤ gaugeL / 2 + T
            linarith
          · show gaugeL / 2 ≤ (gripL * 2 + gaugeL + T * 2) / 2
            linarith
          · show gaugeL / 2 ≤ (gripL * 2 + gaugeL + T * 2) / 2
            linarith
    · intro b hb
      rw [List.mem_append] at hb
      rcases hb with hb | hb
      · simp only [List.mem_cons, List.not_mem_nil, or_false] at hb
        rcases hb with rfl | rfl
        · show -gaugeL / 2 ≤ -gaugeL / 2
          linarith
        · show -gaugeL / 2 ≤ gaugeL / 2
          linarith
      · rw [List.mem_append] at hb
        rcases hb with hb | hb
        · exact le_trans (by linarith) (hrB b hb).1
        · simp only [List.mem_cons, List.not_mem_nil, or_false] at hb
          rcases hb with rfl | rfl | rfl
          · show -gaugeL / 2 ≤ gaugeL / 2 + T
            linarith
          · show -gaugeL / 2 ≤ (gripL * 2 + gaugeL + T * 2) / 2
            linarith
          · show -gaugeL / 2 ≤ (gripL * 2 + gaugeL + T * 2) / 2
            linarith
  · intro a ha
    simp only [List.mem_cons, List.not_mem_nil, or_false] at ha
    rcases ha with rfl | rfl | rfl
    · show -(gripL * 2 + gaugeL + T * 2) / 2 ≤ -gaugeL / 2 - T
      linarith
    · show -(gripL * 2 + gaugeL + T * 2) / 2 ≤ -gaugeL / 2 - T
      linarith
    · show -gaugeL / 2 - T ≤ -gaugeL / 2 - T
      linarith
  · intro b hb
    rw [List.mem_append] at hb
    rcases hb with hb | hb
    · exact le_trans (by linarith) (hlB b hb).1
    · rw [List.mem_append] at hb
      rcases hb with hb | hb
      · simp only [List.mem_cons, List.not_mem_nil, or_false] at hb
        rcases hb with rfl | rfl
        · show -gaugeL / 2 - T ≤ -gaugeL / 2
          linarith
        · show -gaugeL / 2 - T ≤ gaugeL / 2
          linarith
      · rw [List.mem_append] at hb
        rcases hb with hb | hb
        · exact le_trans (by linarith) (hrB b hb).1
        · simp only [List.mem_cons, List.not_mem_nil, or_false] at hb
          rcases hb with rfl | rfl | rfl
          · show -gaugeL / 2 - T ≤ gaugeL / 2 + T
            linarith
          · show -gaugeL / 2 - T ≤ (gripL * 2 + gaugeL + T * 2) / 2
            linarith
          · show -gaugeL / 2 - T ≤ (gripL * 2 + gaugeL + T * 2) / 2
            linarith

/-- Claim C3: for every valid `SpecimenParams` (gaugeDiameter < gripDiameter,
positive grip and gauge lengths, taper angle within [7°, 10°] when the
tapered transition is used), the point sequence of the profile returned by
`generateSpecimenProfile` is non-decreasing in x. -/
theorem profile_points_monotone_x (p : SpecimenParams ℝ)
    (hd : p.gaugeDiameter < p.gripDiameter)
    (hgrip : 0 < p.gripLength) (hgauge : 0 < p.gaugeLength)
    (htaper : p.useTaperedTransition = true → 7 ≤ p.taperAngle ∧ p.taperAngle ≤ 10) :
    List.Pairwise (fun a b => a.x ≤ b.x)
      (generateSpecimenProfile .circular p).points := by
  have hrad : 0 ≤ p.gripDiameter / 2 - p.gaugeDiameter / 2 := by linarith
  cases hb : p.useTaperedTransition with
  | false =>
      have hT : 0 ≤ calculateTransitionLength (p.gripDiameter / 2) (p.gaugeDiameter / 2)
          p.filletRadius p.transitionType :=
        le_trans (by nlinarith) (le_max_left _ _)
      have hse : (Point2D.mk (-p.gaugeLength / 2
            - calculateTransitionLength (p.gripDiameter / 2) (p.gaugeDiameter / 2)
              p.filletRadius p.transitionType) (p.gripDiameter / 2)).x
          ≤ (Point2D.mk (-p.gaugeLength / 2) (p.gaugeDiameter / 2)).x := by
        show -p.gaugeLength / 2 - _ ≤ -p.gaugeLength / 2
        linarith
      have hse2 : (Point2D.mk (p.gaugeLength / 2) (p.gaugeDiameter / 2)).x
          ≤ (Point2D.mk (p.gaugeLength / 2
            + calculateTransitionLength (p.gripDiameter / 2) (p.gaugeDiameter / 2)
              p.filletRadius p.transitionType) (p.gripDiameter / 2)).x := by
        show p.gaugeLength / 2 ≤ p.gaugeLength / 2 + _
        linarith
      simp only [generateSpecimenProfile, generateCircularSpecimenProfile, hb,
        Bool.false_eq_true, if_false]
      exact pairwise_profile_assembly p.gripLength p.gaugeLength _
        (p.gripDiameter / 2) (p.gaugeDiameter / 2) _ _
        (le_of_lt hgrip) (le_of_lt hgauge) hT
        (generateTransitionPoints_x_pairwise _ _ _ _ hse)
        (generateTransitionPoints_x_pairwise _ _ _ _ hse2)
        (generateTransitionPoints_x_bounds _ _ _ _ hse)
        (generateTransitionPoints_x_bounds _ _ _ _ hse2)
  | true =>
      obtain ⟨h7, h10⟩ := htaper hb
      have hπ := Real.pi_pos
      have hθ : 0 < p.taperAngle := by linarith
      have h0 : 0 < p.taperAngle * Real.pi / 180 := by positivity
      have hlt : p.taperAngle * Real.pi / 180 < Real.pi / 2 := by
        nlinarith [mul_pos hπ (show (0:ℝ) < 90 - p.taperAngle by linarith)]
      have htan : 0 < Real.tan (p.taperAngle * Real.pi / 180) :=
        Real.tan_pos_of_pos_of_lt_pi_div_two h0 hlt
      have hT : 0 ≤ calculateTaperedTransitionLength (p.gripDiameter / 2)
          (p.gaugeDiameter / 2) p.taperAngle := by
        unfold calculateTaperedTransitionLength
        exact div_nonneg hrad (le_of_lt htan)
      simp only [generateSpecimenProfile, generateCircularSpecimenProfile, hb, if_true]
      refine pairwise_profile_assembly p.gripLength p.gaugeLength _
        (p.gripDiameter / 2) (p.gaugeDiameter / 2) _ _
        (le_of_lt hgrip) (le_of_lt hgauge) hT
        (List.pairwise_singleton _ _) (List.pairwise_singleton _ _) ?_ ?_
      · intro q hq
        rw [List.mem_singleton] at hq
        subst hq
        constructor
        · show -p.gaugeLength / 2 - _ ≤ -p.gaugeLength / 2
          linarith
        · show -p.gaugeLength / 2 ≤ -p.gaugeLength / 2
          linarith
      · intro q hq
        rw [List.mem_singleton] at hq
        subst hq
        constructor
        · show p.gaugeLength / 2 ≤ p.gaugeLength / 2 + _
          linarith
        · show p.gaugeLength / 2 + _ ≤ p.gaugeLength / 2 + _
          linarith

/-- Witness for C3: the point sequence is non-decreasing in x at the
specification's non-tapered example parameters. -/
theorem profile_points_monotone_x_witness :
    List.Pairwise (fun a b => a.x ≤ b.x)
      (generateSpecimenProfile .circular exampleNonTaperedParams).points :=
  profile_points_monotone_x exampleNonTaperedParams
    (by norm_num [exampleNonTaperedParams]) (by norm_num [exampleNonTaperedParams])
    (by norm_num [exampleNonTaperedParams])
    (fun h => absurd h (by norm_num [exampleNonTaperedParams]))

/-- Claim C8 (amended): for every tapered `SpecimenParams` with
`gaugeDiameter < gripDiameter`, the generated transition length equals
`(gripRadius - gaugeRadius) / tan(taperAngle · π / 180)` computed from the
raw, unclamped `taperAngle`; whenever the angle lies in the validator's
[7°, 10°] domain the tangent is positive and the transition length is a
positive, non-degenerate value.  (No clamping is applied inside generation:
see the counterexample at 45°.) -/
theorem taperedTransitionLength_formula (p : SpecimenParams ℝ)
    (ht : p.useTaperedTransition = true) (hd : p.gaugeDiameter < p.gripDiameter) :
    (generateSpecimenProfile .circular p).transitionLength
        = (p.gripDiameter / 2 - p.gaugeDiameter / 2) / Real.tan (p.taperAngle * Real.pi / 180)
    ∧ (7 ≤ p.taperAngle → p.taperAngle ≤ 10 →
        0 < (generateSpecimenProfile .circular p).transitionLength) := by
  have hform : (generateSpecimenProfile .circular p).transitionLength
      = (p.gripDiameter / 2 - p.gaugeDiameter / 2)
        / Real.tan (p.taperAngle * Real.pi / 180) := by
    simp [generateSpecimenProfile, generateCircularSpecimenProfile, ht,
      calculateTaperedTransitionLength]
  refine ⟨hform, fun h7 h10 => ?_⟩
  rw [hform]
  have hπ := Real.pi_pos
  have hθ : 0 < p.taperAngle := by linarith
  have h0 : 0 < p.taperAngle * Real.pi / 180 := by positivity
  have hlt : p.taperAngle * Real.pi / 180 < Real.pi / 2 := by
    nlinarith [mul_pos hπ (show (0:ℝ) < 90 - p.taperAngle by linarith)]
  exact div_pos (by linarith) (Real.tan_pos_of_pos_of_lt_pi_div_two h0 hlt)

/-- Witness for C8 (amended): the specification's tapered example
(gripRadius 7.5, gaugeRadius 3.5, taperAngle 8°) yields a positive transition
length. -/
theorem taperedTransitionLength_formula_witness :
    0 < (generateSpecimenProfile .circular exampleTaperedParams).transitionLength :=
  (taperedTransitionLength_formula exampleTaperedParams rfl
      (by norm_num [exampleTaperedParams])).2
    (by norm_num [exampleTaperedParams]) (by norm_num [exampleTaperedParams])

/-- Counterexample for C8: the taper angle is not clamped to [7°, 10°] inside
profile generation.  At taperAngle 45° the generated transition length is
`4 / tan(45°) = 4`, not the `4 / tan(10°)` that clamping to the configured
domain would give. -/
theorem taperAngle_not_clamped :
    (generateSpecimenProfile .circular taperedParams45).transitionLength = 4
    ∧ (generateSpecimenProfile .circular taperedParams45).transitionLength
        ≠ (taperedParams45.gripDiameter / 2 - taperedParams45.gaugeDiameter / 2)
            / Real.tan (10 * Real.pi / 180) := by
  have hform : (generateSpecimenProfile .circular taperedParams45).transitionLength
      = ((15 : ℝ) / 2 - 7 / 2) / Real.tan ((45 : ℝ) * Real.pi / 180) := by
    simp [generateSpecimenProfile, generateCircularSpecimenProfile, taperedParams45,
      calculateTaperedTransitionLength]
  have h4 : (generateSpecimenProfile .circular taperedParams45).transitionLength = 4 := by
    rw [hform, show (45 : ℝ) * Real.pi / 180 = Real.pi / 4 by ring, Real.tan_pi_div_four]
    norm_num
  refine ⟨h4, ?_⟩
  rw [h4, show taperedParams45.gripDiameter = (15:ℝ) from rfl,
    show taperedParams45.gaugeDiameter = (7:ℝ) from rfl,
    show (10 : ℝ) * Real.pi / 180 = Real.pi / 18 by ring]
  have hπ := Real.pi_pos
  have ht0 : 0 < Real.tan (Real.pi / 18) :=
    Real.tan_pos_of_pos_of_lt_pi_div_two (by positivity) (by linarith)
  have ht1 : Real.tan (Real.pi / 18) < 1 := by
    have h := Real.tan_lt_tan_of_nonneg_of_lt_pi_div_two
      (show (0:ℝ) ≤ Real.pi / 18 by positivity)
      (show Real.pi / 4 < Real.pi / 2 by linarith)
      (show Real.pi / 18 < Real.pi / 4 by linarith)
    rwa [Real.tan_pi_div_four] at h
  have hgt : (4 : ℝ) < ((15 : ℝ) / 2 - 7 / 2) / Real.tan (Real.pi / 18) := by
    rw [show (15:ℝ) / 2 - 7 / 2 = 4 by norm_num, lt_div_iff₀ ht0]
    nlinarith
  exact ne_of_lt hgt

/-- Claim C10: for lattice type "simple-vertical",
`createLatticeGaugeSection` performs no Boolean subtraction — the returned
mesh keeps the full solid gauge cylinder as its geometry, with the strut
cylinders attached as additional child meshes — yet
`calculateLatticeVolumeReduction` reports a strictly positive void fraction
for the same parameters as soon as at least one strut fits in the gauge
length (`floor(length / (2 · size)) ≥ 2`). -/
theorem simpleVertical_keeps_solid_gauge (p : LatticeParams)
    (hth : 0 < p.thickness) (hr : 0 < p.radius) (hl : 0 < p.length)
    (hfits : 2 ≤ ⌊p.length / (p.size * 2)⌋) :
    (createSimpleVerticalLattice p).geometry = gaugeGeometry p
    ∧ (createSimpleVerticalLattice p).children
        = (verticalStrutPositions p).map (simpleVerticalStrutGeom p)
    ∧ 0 < calculateLatticeVolumeReduction .simpleVertical p := by
  refine ⟨rfl, rfl, ?_⟩
  simp only [calculateLatticeVolumeReduction]
  have hπ := Real.pi_pos
  have hns : (1 : ℝ) ≤ ((⌊p.length / (p.size * 2)⌋ - 1 : ℤ) : ℝ) := by
    have h1 : (1 : ℤ) ≤ ⌊p.length / (p.size * 2)⌋ - 1 := by omega
    exact_mod_cast h1
  have hstrut : 0 < Real.pi * p.thickness * p.thickness * (p.radius * 2) := by positivity
  have hgauge : 0 < Real.pi * p.radius * p.radius * p.length := by positivity
  have hnum : 0 < ((⌊p.length / (p.size * 2)⌋ - 1 : ℤ) : ℝ)
      * (Real.pi * p.thickness * p.thickness * (p.radius * 2)) :=
    mul_pos (lt_of_lt_of_le one_pos hns) hstrut
  exact mul_pos (div_pos hnum hgauge) (by norm_num)

/-- Witness for C10: at size 1, thickness 1, offset 1, radius 1, length 10,
the simple-vertical mesh keeps the solid gauge geometry with struts as
children while the volume estimator reports a positive void fraction. -/
theorem simpleVertical_keeps_solid_gauge_witness :
    (createSimpleVerticalLattice unitLatticeParams).geometry = gaugeGeometry unitLatticeParams
    ∧ (createSimpleVerticalLattice unitLatticeParams).children
        = (verticalStrutPositions unitLatticeParams).map
            (simpleVerticalStrutGeom unitLatticeParams)
    ∧ 0 < calculateLatticeVolumeReduction .simpleVertical unitLatticeParams :=
  simpleVertical_keeps_solid_gauge unitLatticeParams (by norm_num [unitLatticeParams])
    (by norm_num [unitLatticeParams]) (by norm_num [unitLatticeParams])
    (by norm_num [unitLatticeParams])

end FatigueDesigner
